import Mathlib

/-!
Shallow embedding of `main.go` of the `nfs-test` diagnostic probe service,
together with theorems settling the specification claims about it.

The embedding follows the Go source closely:
* the `response` struct and its `handle` finalizer,
* the `/write-storage`, `/read-storage` and `/list` HTTP handlers,
* the sqlite probe loop pair set up by `setupSqlite`,
* the `UID`/`GID` startup parsing (`strconv.Atoi` followed by `uint32` conversion).

External dependencies (the NFS client, the filesystem, the sqlite driver,
the wall clock, the random source) are passed in as explicit parameters or
modelled by small transition functions, mirroring exactly what the Go code
does with their results.
-/

namespace NfsTest

/-- A remote-filesystem directory entry, mirroring the `FileInfo` struct of the
source (`name`, `is_dir`, `size`, `mtime`); the modification time is kept in its
already-serialized textual form since no claim inspects it. -/
structure FileInfo where
  name : String
  isDir : Bool
  size : Nat
  mtime : String
deriving DecidableEq, Repr

/-- The `response` envelope struct of the source.  The exported, JSON-visible
fields are `Pod`, `Error`, `Message`, `Files` (all tagged `omitempty`); `err`
is the unexported internal error slot set by handlers, never serialized.
A Go `nil`/empty slice is modelled as the empty list, which `omitempty`
treats as absent. -/
structure Response where
  Pod : String := ""
  Error : String := ""
  Message : String := ""
  Files : List FileInfo := []
  err : Option String := none
deriving DecidableEq, Repr

/-- JSON string escaping as performed by `encoding/json` with the default
HTML escaping of `json.Encoder`: quote, backslash, `\n`, `\r`, `\t`,
other control characters as `\u00XX`, and `<`, `>`, `&` as `<` etc. -/
def jsonEscapeChar (c : Char) : String :=
  if c = '"' then "\\\""
  else if c = '\\' then "\\\\"
  else if c = '\n' then "\\n"
  else if c = '\r' then "\\r"
  else if c = '\t' then "\\t"
  else if c = '<' then "\\u003c"
  else if c = '>' then "\\u003e"
  else if c = '&' then "\\u0026"
  else if c.toNat < 32 then
    let hex := fun n => if n < 10 then Char.ofNat (48 + n) else Char.ofNat (87 + n)
    "\\u00" ++ String.mk [hex (c.toNat / 16), hex (c.toNat % 16)]
  else String.mk [c]

/-- Serialize a string as a JSON string literal. -/
def jsonString (s : String) : String :=
  "\"" ++ String.join (s.data.map jsonEscapeChar) ++ "\""

/-- Serialize one `FileInfo` the way `encoding/json` renders the struct
(fields in declaration order, no `omitempty` on them). -/
def encodeFileInfo (f : FileInfo) : String :=
  "\x7b\"name\":" ++ jsonString f.name
    ++ ",\"is_dir\":" ++ (if f.isDir then "true" else "false")
    ++ ",\"size\":" ++ toString f.size
    ++ ",\"mtime\":" ++ jsonString f.mtime ++ "\x7d"

/-- Serialize the exported fields of a `response` exactly as
`json.NewEncoder(w).Encode(r)` does: fields in declaration order
(`pod`, `error`, `message`, `files`), each omitted when empty
(`omitempty`), and a trailing newline appended by `Encoder.Encode`. -/
def encodeResponse (r : Response) : String :=
  let fields : List String :=
    (if r.Pod = "" then [] else ["\"pod\":" ++ jsonString r.Pod])
    ++ (if r.Error = "" then [] else ["\"error\":" ++ jsonString r.Error])
    ++ (if r.Message = "" then [] else ["\"message\":" ++ jsonString r.Message])
    ++ (if r.Files = [] then [] else
        ["\"files\":[" ++ String.intercalate "," (r.Files.map encodeFileInfo) ++ "]"])
  "\x7b" ++ String.intercalate "," fields ++ "\x7d\n"

/-- The generic error string exposed to HTTP callers by `handle`. -/
def genericError : String := "something went wrong"

/-- The externally visible outcome of finalizing one request:
the `Content-Type` header value, the HTTP status code written, the envelope
value that gets serialized, and the log line emitted (the full internal
error text, present only on the error path). -/
structure HandleResult where
  contentType : String
  status : Nat
  sent : Response
  loggedError : Option String
deriving DecidableEq, Repr

/-- The body bytes written to the response stream: the JSON serialization of
the finalized envelope. -/
def HandleResult.body (h : HandleResult) : String := encodeResponse h.sent

/-- The `handle` method of `response`: sets `Content-Type: application/json`,
stamps `Pod` with the configured `POD_NAME`, on a recorded internal error sets
`Error` to the fixed generic string, logs the internal error and writes
status 500, otherwise writes status 200; finally JSON-encodes the envelope
as the body. -/
def handle (podNameEnv : String) (r : Response) : HandleResult :=
  let r := { r with Pod := podNameEnv }
  match r.err with
  | some e =>
      { contentType := "application/json", status := 500,
        sent := { r with Error := genericError }, loggedError := some e }
  | none =>
      { contentType := "application/json", status := 200,
        sent := r, loggedError := none }

/-! ### Durable scalar store: the `/write-storage` and `/read-storage` handlers -/

/-- The local filesystem seen by `os.WriteFile` / `os.ReadFile`, as a finite
map from path to file content (association list, most recent write first). -/
def Fs : Type := List (String × String)

/-- Model of `os.ReadFile`: the content at a path, or `none` when the file does not
exist (the I/O error case). -/
def fsRead (fs : Fs) (path : String) : Option String :=
  (fs.find? (fun p => p.1 = path)).map (·.2)

/-- Model of `os.WriteFile`: overwrite (or create) the file at a path with the given
content. -/
def fsWrite (fs : Fs) (path : String) (content : String) : Fs :=
  (path, content) :: fs.filter (fun p => ¬ p.1 = path)

/-- A filesystem operation issued by a handler, for tracking whether an
endpoint touched the filesystem at all. -/
inductive FsOp where
  | write (path content : String)
  | read (path : String)
deriving DecidableEq, Repr

/-- A broken-down wall-clock instant as the Go `time.Time` value presents it for
formatting: calendar fields plus the zone offset from UTC in minutes. -/
structure GoTime where
  year : Nat
  month : Nat
  day : Nat
  hour : Nat
  minute : Nat
  second : Nat
  offsetMinutes : Int
deriving DecidableEq, Repr

/-- Zero-pad a number to two digits, as the `04`/`05` style verbs of a Go
time layout do. -/
def pad2 (n : Nat) : String :=
  if n < 10 then "0" ++ toString n else toString n

/-- Zero-pad a year to four digits (`2006` layout verb). -/
def pad4 (n : Nat) : String :=
  if n < 10 then "000" ++ toString n
  else if n < 100 then "00" ++ toString n
  else if n < 1000 then "0" ++ toString n
  else toString n

/-- Model of `t.Format(time.RFC3339)`: the layout `2006-01-02T15:04:05Z07:00`, where
the zone part is the literal `Z` for UTC and a signed `±hh:mm` offset
otherwise. -/
def formatRFC3339 (t : GoTime) : String :=
  let zone :=
    if t.offsetMinutes = 0 then "Z"
    else
      let sign := if t.offsetMinutes < 0 then "-" else "+"
      let a := t.offsetMinutes.natAbs
      sign ++ pad2 (a / 60) ++ ":" ++ pad2 (a % 60)
  pad4 t.year ++ "-" ++ pad2 t.month ++ "-" ++ pad2 t.day ++ "T"
    ++ pad2 t.hour ++ ":" ++ pad2 t.minute ++ ":" ++ pad2 t.second ++ zone

/-- The error recorded by both storage handlers when `STORAGE_PATH` is empty. -/
def noStoragePathError : String := "no storage path set via STORAGE_PATH env variable"

/-- The `/write-storage` handler body (everything before the deferred
`handle`): with no configured path it records the configuration error and
returns at once; otherwise it formats the current time as RFC3339, writes it
as the whole file content, and on success records the success message.
Returns the envelope, the resulting filesystem, and the filesystem
operations it issued. -/
def writeStorageHandler (storagePathEnv : String) (now : GoTime) (fs : Fs) :
    Response × Fs × List FsOp :=
  if storagePathEnv = "" then
    ({ err := some noStoragePathError }, fs, [])
  else
    let currentTime := formatRFC3339 now
    ({ Message := "current time written to store: " ++ currentTime },
      fsWrite fs storagePathEnv currentTime,
      [FsOp.write storagePathEnv currentTime])

/-- The `/read-storage` handler body: with no configured path it records the
configuration error; otherwise it reads the whole file, recording an I/O
error when the read fails and the success message carrying the verbatim file
content when it succeeds. -/
def readStorageHandler (storagePathEnv : String) (fs : Fs) :
    Response × List FsOp :=
  if storagePathEnv = "" then
    ({ err := some noStoragePathError }, [])
  else
    match fsRead fs storagePathEnv with
    | none =>
        ({ err := some "error reading from file: file does not exist" },
          [FsOp.read storagePathEnv])
    | some content =>
        ({ Message := "last time written to store: " ++ content },
          [FsOp.read storagePathEnv])

/-! ### Remote listing gateway: the `/list` handler -/

/-- The identity parameters handed to `nfs4.NewNfsClient`: the source builds
`nfs4.AuthParams{Uid: uint32(uid), Gid: uint32(gid), MachineName: machineName}`. -/
structure AuthParams where
  Uid : Nat
  Gid : Nat
  MachineName : String
deriving DecidableEq, Repr

/-- The outcome of the two external NFS calls a `/list` request makes:
connection setup (`NewNfsClient`) may fail with an error text, and on a
connected client the single `GetFileList` call either fails with an error
text or returns the entries. -/
structure NfsOutcome where
  connect : Except String Unit
  getFileList : Except String (List FileInfo)
deriving Repr

/-- The `/list` handler body: defaults an absent `path` query parameter to
`"/"`, connects afresh, and on success issues exactly one listing call for
the path, storing the entries verbatim; either failure is recorded as a
single wrapped domain error. -/
def listHandler (queryPath : Option String) (nfs : NfsOutcome) : Response :=
  match nfs.connect with
  | .error e => { err := some ("error creating NFS client: " ++ e) }
  | .ok _ =>
      let path := match queryPath with
                  | none => "/"
                  | some p => if p = "" then "/" else p
      match nfs.getFileList with
      | .error e =>
          { err := some ("Error reading dir \"" ++ path ++ "\": " ++ e) }
      | .ok entries => { Files := entries }

/-! ### The sqlite probe store (`setupSqlite`) -/

/-- One row of the `entries` table created by `setupSqlite`:
`id INTEGER PRIMARY KEY AUTOINCREMENT, pod TEXT NOT NULL, ts DATETIME NOT
NULL, payload TEXT`. -/
structure Entry where
  id : Nat
  pod : String
  ts : String
  payload : String
deriving DecidableEq, Repr

/-- The state of the `entries` table.  `seq` is the sqlite `AUTOINCREMENT`
sequence counter: each insert is assigned `seq + 1` and bumps the counter,
so identifiers are store-assigned and never reused.  `rows` is the table
content in insertion order. -/
structure Store where
  seq : Nat
  rows : List Entry
deriving DecidableEq, Repr

/-- A freshly created, empty `entries` table. -/
def emptyStore : Store := { seq := 0, rows := [] }

/-- The `INSERT INTO entries (pod, ts, payload) VALUES (?, datetime(now), ?)` (the literal now-datetime SQL expression)
statement: appends one row with the next auto-increment identifier. -/
def insertEntry (st : Store) (pod ts payload : String) : Store :=
  { seq := st.seq + 1,
    rows := st.rows ++ [{ id := st.seq + 1, pod := pod, ts := ts, payload := payload }] }

/-- The external inputs of one write-cycle tick: the store-generated
store-generated `datetime(now)` timestamp and the pseudo-random draw `rand.Intn(1000)`
(a value in `[0, 1000)`, embedded as an arbitrary draw reduced mod 1000). -/
structure WriteInput where
  ts : String
  rand : Nat
deriving DecidableEq, Repr

/-- One successful write-cycle tick: builds the payload
`fmt.Sprintf("rand=%d", rand.Intn(1000))` and inserts one record with the
pod name of the instance and the store-generated timestamp. -/
def writeTick (podName : String) (st : Store) (inp : WriteInput) : Store :=
  insertEntry st podName inp.ts ("rand=" ++ toString (inp.rand % 1000))

/-- A sequence of successful write-cycle ticks, in order. -/
def runWrites (podName : String) (st : Store) (inps : List WriteInput) : Store :=
  inps.foldl (writeTick podName) st

/-- The aggregate snapshot scanned by the read cycle:
`COUNT(*)` plus the `pod`, `ts`, `payload` fields of the most recent record. -/
structure Aggregate where
  count : Nat
  lastPod : String
  lastTS : String
  lastPayload : String
deriving DecidableEq, Repr

/-- Model of `(SELECT ... FROM entries ORDER BY id DESC LIMIT 1)`: the row with the
greatest identifier, or no row when the table is empty. -/
def maxIdRow : List Entry → Option Entry
  | [] => none
  | e :: es =>
      match maxIdRow es with
      | none => some e
      | some m => if e.id ≤ m.id then some m else some e

/-- The error text `database/sql` produces when `Scan` targets a `string`
and the column is SQL `NULL` (which the three correlated subqueries return
on an empty table). -/
def scanNullError : String := "sql: Scan error: converting NULL to string is unsupported"

/-- The single query of the read cycle:
`SELECT COUNT(*), (SELECT pod ...), (SELECT ts ...), (SELECT payload ...)`
scanned into `int` and three non-nullable `string` targets: on an empty
table the subqueries are NULL and the scan fails; otherwise it yields the
count and the fields of the greatest-id row. -/
def readAggregate (st : Store) : Except String Aggregate :=
  match maxIdRow st.rows with
  | none => .error scanNullError
  | some last =>
      .ok { count := st.rows.length, lastPod := last.pod,
            lastTS := last.ts, lastPayload := last.payload }

/-- What one read-cycle tick emits to the log: either the error line
(`"read error"`) or the successful-read line carrying the snapshot. -/
inductive ReadLog where
  | readError (msg : String)
  | snapshot (agg : Aggregate)
deriving DecidableEq, Repr

/-- One read-cycle tick: runs the aggregate query and logs either the error
or the snapshot; the store is not modified and the loop continues either way. -/
def readTickLog (st : Store) : ReadLog :=
  match readAggregate st with
  | .error e => .readError e
  | .ok agg => .snapshot agg

/-- Runs `n` consecutive read-cycle ticks against an unchanging store: each tick
logs independently and the cycle keeps running (one log event per tick). -/
def readCycleLogs (st : Store) (n : Nat) : List ReadLog :=
  List.replicate n (readTickLog st)

/-! ### Cancellation behavior of the two background goroutines

Discrete-time model.  `cancelAt` is the instant the shared `context`
cancellation fires (the signal-handler goroutine calls `cancel()`).

The write goroutine loops `select { case <-ctx.Done(): return; default:
insert; sleep(interval) }`: with a `default` branch the `select` never
blocks, and the Go `select` statement takes a ready communication case in preference to
`default`, so the first check at or after `cancelAt` observes the
cancellation and returns.  One loop iteration is one time step; an insert
issued at step `n < cancelAt` began before the signal fired. -/

/-- The write goroutine run, started at step `n` under a cancellation firing
at step `cancelAt`: returns the steps at which inserts begin and the step of
the check that observes the cancellation and returns. -/
def writeLoop (cancelAt n : Nat) : List Nat × Nat :=
  if h : n < cancelAt then
    let rest := writeLoop cancelAt (n + 1)
    (n :: rest.1, rest.2)
  else
    ([], n)
termination_by cancelAt - n

/-- The read goroutine loops `select { case <-ctx.Done(): return;
case <-ticker.C: query }` with no `default`: it blocks until a case is
ready, and when both are ready simultaneously Go chooses between them
nondeterministically.  The ticker fires at times `p, 2p, 3p, ...`; queries
are instantaneous in this model, so after consuming tick `i` the goroutine
is back in the `select` before tick `i+1`.  Consequently:
* if the cancellation is ready strictly before the next tick, `Done` is the
  only ready case and the goroutine returns at `cancelAt`;
* if both become ready at the same instant, the `choice` oracle resolves
  the race: either the goroutine returns, or it runs one more query and the
  next `select` (where only `Done` is ready) returns.
`fuel` bounds the recursion; any `fuel > i₀` with `p * i₀ ≥ cancelAt`
suffices.  Returns the steps at which queries begin and, when the fuel
sufficed, the step of the check observing the cancellation. -/
def readLoop (cancelAt p : Nat) (choice : Nat → Bool) : Nat → Nat → List Nat × Option Nat
  | _, 0 => ([], none)
  | i, fuel + 1 =>
      let t := p * (i + 1)
      if cancelAt < t then
        ([], some cancelAt)
      else if cancelAt = t then
        if choice i then
          ([], some t)
        else
          let rest := readLoop cancelAt p choice (i + 1) fuel
          (t :: rest.1, rest.2)
      else
        let rest := readLoop cancelAt p choice (i + 1) fuel
        (t :: rest.1, rest.2)

/-! ### `UID`/`GID` startup parsing -/

/-- The decimal value of a digit string, or `none` on a non-digit or an
empty string (`strconv.Atoi` syntax errors). -/
def parseDigits : List Char → Option Nat
  | [] => none
  | cs => cs.foldl
      (fun acc c =>
        match acc with
        | none => none
        | some n => if c.isDigit then some (n * 10 + (c.toNat - 48)) else none)
      (some 0)

/-- Model of `strconv.Atoi` on a 64-bit platform: an optional sign followed by
digits, rejected when empty, malformed, or outside the `int64` range
`[-2^63, 2^63)`.  The source calls `log.Fatalf` on any error, so a value is
accepted at startup exactly when this returns `some`. -/
def goAtoi (s : String) : Option Int :=
  let parse : Bool → List Char → Option Int := fun neg ds =>
    match parseDigits ds with
    | none => none
    | some n =>
        if neg then
          if n ≤ 2 ^ 63 then some (-(n : Int)) else none
        else
          if n < 2 ^ 63 then some (n : Int) else none
  match s.data with
  | [] => none
  | c :: rest =>
      if c = '-' then parse true rest
      else if c = '+' then parse false rest
      else parse false (c :: rest)

/-- The Go `uint32(i)` conversion of a (signed, 64-bit) integer: truncation to
the low 32 bits, i.e. reduction modulo `2^32` into `[0, 2^32)`. -/
def toUint32 (i : Int) : Nat := (i % (2 ^ 32 : Int)).toNat

/-- The startup parsing of the `UID` (resp. `GID`) environment value
followed by the `uint32(uid)` conversion done by the `/list` handler into
`nfs4.AuthParams`: `none` means the process aborts at startup, `some u`
means every `/list` request sends `u` as the identity parameter. -/
def parsedAuthId (env : String) : Option Nat :=
  (goAtoi env).map toUint32

/-- The `AuthParams` value built by the `/list` handler from accepted
`UID`/`GID` values and the configured machine name. -/
def authParams (uid gid : Int) (machineName : String) : AuthParams :=
  { Uid := toUint32 uid, Gid := toUint32 gid, MachineName := machineName }

/-! ## Helper lemmas -/

/-- A concatenation whose left part is nonempty is nonempty. -/
theorem append_left_ne_empty (s t : String) (h : s.length ≠ 0) : s ++ t ≠ "" := by
  intro he
  have hl := congrArg String.length he
  rw [String.length_append] at hl
  have h0 : ("" : String).length = 0 := rfl
  omega

/-! ## Claim theorems -/

/-- C1: for every request handled through the response envelope, finalization
sets `Content-Type: application/json`, stamps the configured pod label,
writes status 500 exactly when a domain error was recorded and 200
otherwise, and the error field of the serialized body is the fixed generic
string on the error path and absent otherwise; the externally visible
outcome (status and body) does not depend on the internal error text, so the
wrapped internal error never appears in the response. -/
theorem envelope_finalization_C1 (pod : String) (r : Response) (hE : r.Error = "") :
    (handle pod r).contentType = "application/json"
    ∧ (handle pod r).sent.Pod = pod
    ∧ (handle pod r).status = (if r.err.isSome then 500 else 200)
    ∧ (handle pod r).sent.Error = (if r.err.isSome then genericError else "")
    ∧ (∀ e₁ e₂ : String,
        (handle pod { r with err := some e₁ }).status
            = (handle pod { r with err := some e₂ }).status
        ∧ (handle pod { r with err := some e₁ }).body
            = (handle pod { r with err := some e₂ }).body) := by
  refine ⟨?_, ?_, ?_, ?_, ?_⟩
  · cases h : r.err <;> simp [handle, h]
  · cases h : r.err <;> simp [handle, h]
  · cases h : r.err <;> simp [handle, h]
  · cases h : r.err <;> simp [handle, h, hE]
  · intro e₁ e₂
    exact ⟨rfl, rfl⟩

/-- Witness for C1 at a concrete envelope carrying an internal error. -/
theorem envelope_finalization_C1_witness :
    (handle "p" { err := some "boom" }).contentType = "application/json"
    ∧ (handle "p" { err := some "boom" }).sent.Pod = "p"
    ∧ (handle "p" { err := some "boom" }).status
        = (if ({ err := some "boom" } : Response).err.isSome then 500 else 200)
    ∧ (handle "p" { err := some "boom" }).sent.Error
        = (if ({ err := some "boom" } : Response).err.isSome then genericError else "")
    ∧ (∀ e₁ e₂ : String,
        (handle "p" { ({ err := some "boom" } : Response) with err := some e₁ }).status
            = (handle "p" { ({ err := some "boom" } : Response) with err := some e₂ }).status
        ∧ (handle "p" { ({ err := some "boom" } : Response) with err := some e₁ }).body
            = (handle "p" { ({ err := some "boom" } : Response) with err := some e₂ }).body) :=
  envelope_finalization_C1 "p" { err := some "boom" } rfl

/-- C2 counterexample: with `POD_NAME` unset the finalized `/list` failure
body is not the claimed `\x7b"pod":"","error":"something went wrong"\x7d`:
the `pod` field carries the `omitempty` tag and is omitted when empty, and
the JSON encoder appends a newline.  The status is 500 as claimed. -/
theorem list_unreachable_body_C2_cex :
    (handle "" (listHandler (some "/data")
        { connect := .error "connect timeout", getFileList := .error "unreachable" })).status = 500
    ∧ (handle "" (listHandler (some "/data")
        { connect := .error "connect timeout", getFileList := .error "unreachable" })).body
        ≠ "\x7b\"pod\":\"\",\"error\":\"something went wrong\"\x7d"
    ∧ (handle "" (listHandler (some "/data")
        { connect := .error "connect timeout", getFileList := .error "unreachable" })).body
        = "\x7b\"error\":\"something went wrong\"\x7d\n" := by
  refine ⟨rfl, ?_, rfl⟩
  decide

/-- C2 amended: with `POD_NAME` unset, a `GET /list?path=/data` request whose
NFS connection attempt fails (unreachable server) yields status 500 and body
exactly `\x7b"error":"something went wrong"\x7d` followed by the newline the
JSON encoder appends — the empty `pod` field is omitted (`omitempty`), and no
other field appears. -/
theorem list_unreachable_body_C2 (connectErr listErr : String) :
    (handle "" (listHandler (some "/data")
        { connect := .error connectErr, getFileList := .error listErr })).status = 500
    ∧ (handle "" (listHandler (some "/data")
        { connect := .error connectErr, getFileList := .error listErr })).body
        = "\x7b\"error\":\"something went wrong\"\x7d\n" := by
  exact ⟨rfl, rfl⟩

/-- C3 counterexample: a `/list` request whose connection and listing both
succeed but whose directory is empty produces a finalized envelope with an
empty error field, an empty message field, and an absent files field, so
"error non-empty iff (message empty and files absent)" fails for it. -/
theorem envelope_exclusivity_C3_cex :
    ¬ (((handle "p" (listHandler (some "/")
          { connect := .ok (), getFileList := .ok [] })).sent.Error ≠ "")
        ↔ ((handle "p" (listHandler (some "/")
              { connect := .ok (), getFileList := .ok [] })).sent.Message = ""
            ∧ (handle "p" (listHandler (some "/")
                  { connect := .ok (), getFileList := .ok [] })).sent.Files = [])) := by
  decide

/-- C3 amended: in every finalized envelope, for the storage endpoints the
error field is non-empty iff the message field is empty (and their files
field is always absent, so files is populated only by `/list`); for `/list`
the message field is always empty and the error field is non-empty iff the
files field is absent and the request did not succeed with an empty listing
— a `/list` success on an empty directory populates none of error, message,
files. -/
theorem envelope_exclusivity_C3 (pod sp : String) (now : GoTime) (fs : Fs)
    (qp : Option String) (nfs : NfsOutcome) :
    ((((handle pod (writeStorageHandler sp now fs).1).sent.Error ≠ "")
        ↔ ((handle pod (writeStorageHandler sp now fs).1).sent.Message = ""
            ∧ (handle pod (writeStorageHandler sp now fs).1).sent.Files = []))
      ∧ (handle pod (writeStorageHandler sp now fs).1).sent.Files = [])
    ∧ ((((handle pod (readStorageHandler sp fs).1).sent.Error ≠ "")
        ↔ ((handle pod (readStorageHandler sp fs).1).sent.Message = ""
            ∧ (handle pod (readStorageHandler sp fs).1).sent.Files = []))
      ∧ (handle pod (readStorageHandler sp fs).1).sent.Files = [])
    ∧ ((handle pod (listHandler qp nfs)).sent.Message = ""
      ∧ (((handle pod (listHandler qp nfs)).sent.Error ≠ "")
          ↔ ((handle pod (listHandler qp nfs)).sent.Message = ""
              ∧ (handle pod (listHandler qp nfs)).sent.Files = []
              ∧ ¬ (nfs.connect = .ok () ∧ nfs.getFileList = .ok [])))) := by
  refine ⟨⟨?_, ?_⟩, ⟨?_, ?_⟩, ?_, ?_⟩
  · by_cases hsp : sp = ""
    · simp [writeStorageHandler, handle, hsp, genericError]
    · simp [writeStorageHandler, handle, hsp, genericError]
      exact append_left_ne_empty _ _ (by decide)
  · by_cases hsp : sp = "" <;>
      simp [writeStorageHandler, handle, hsp]
  · by_cases hsp : sp = ""
    · simp [readStorageHandler, handle, hsp, genericError]
    · cases hr : fsRead fs sp with
      | none => simp [readStorageHandler, handle, hsp, hr, genericError]
      | some content =>
          simp [readStorageHandler, handle, hsp, hr, genericError]
          exact append_left_ne_empty _ _ (by decide)
  · by_cases hsp : sp = ""
    · simp [readStorageHandler, handle, hsp]
    · cases hr : fsRead fs sp <;>
        simp [readStorageHandler, handle, hsp, hr]
  · obtain ⟨c, l⟩ := nfs
    cases c with
    | error e => simp [listHandler, handle]
    | ok u => cases u; cases l <;> simp [listHandler, handle]
  · obtain ⟨c, l⟩ := nfs
    cases c with
    | error e => simp [listHandler, handle, genericError]
    | ok u =>
        cases u
        cases l with
        | error e => simp [listHandler, handle, genericError]
        | ok entries => cases entries <;> simp [listHandler, handle]

/-- C4: when `STORAGE_PATH` is empty, every `/write-storage` call and every
`/read-storage` call records exactly the "no storage path set" error and is
finalized with status 500, the outcome is the same fixed envelope on every
call (deterministic, independent of the clock and the filesystem), and
neither endpoint issues any filesystem operation (the filesystem is
untouched). -/
theorem storage_no_path_C4 (pod : String) (now : GoTime) (fs : Fs) :
    (writeStorageHandler "" now fs).1 = { err := some noStoragePathError }
    ∧ (writeStorageHandler "" now fs).2.1 = fs
    ∧ (writeStorageHandler "" now fs).2.2 = []
    ∧ (readStorageHandler "" fs).1 = { err := some noStoragePathError }
    ∧ (readStorageHandler "" fs).2 = []
    ∧ (handle pod (writeStorageHandler "" now fs).1).status = 500
    ∧ (handle pod (readStorageHandler "" fs).1).status = 500 :=
  ⟨rfl, rfl, rfl, rfl, rfl, rfl, rfl⟩

/-- C5: for every non-empty configured storage path, a successful
`/write-storage` stores exactly the RFC3339-formatted current time as the
whole file content and reports it in its success message, and a
`/read-storage` with no intervening write returns that content verbatim
inside its success message, finalized with status 200. -/
theorem storage_roundtrip_C5 (sp : String) (hsp : sp ≠ "") (pod : String)
    (now : GoTime) (fs : Fs) :
    (writeStorageHandler sp now fs).1.Message
        = "current time written to store: " ++ formatRFC3339 now
    ∧ fsRead (writeStorageHandler sp now fs).2.1 sp = some (formatRFC3339 now)
    ∧ (readStorageHandler sp (writeStorageHandler sp now fs).2.1).1.Message
        = "last time written to store: " ++ formatRFC3339 now
    ∧ (readStorageHandler sp (writeStorageHandler sp now fs).2.1).1.err = none
    ∧ (handle pod (readStorageHandler sp (writeStorageHandler sp now fs).2.1).1).status
        = 200 := by
  have hread : fsRead (fsWrite fs sp (formatRFC3339 now)) sp
      = some (formatRFC3339 now) := by
    simp [fsRead, fsWrite, List.find?]
  refine ⟨?_, ?_, ?_, ?_, ?_⟩
  · simp [writeStorageHandler, hsp]
  · simp [writeStorageHandler, hsp, hread]
  · simp [writeStorageHandler, readStorageHandler, hsp, hread]
  · simp [writeStorageHandler, readStorageHandler, hsp, hread]
  · simp [writeStorageHandler, readStorageHandler, handle, hsp, hread]

/-- Witness for C5 at the concrete path `/data/ts`, a fixed instant and an
initially empty filesystem. -/
theorem storage_roundtrip_C5_witness :
    (writeStorageHandler "/data/ts" ⟨2026, 10, 11, 3, 4, 5, 0⟩ []).1.Message
        = "current time written to store: "
            ++ formatRFC3339 ⟨2026, 10, 11, 3, 4, 5, 0⟩
    ∧ fsRead (writeStorageHandler "/data/ts" ⟨2026, 10, 11, 3, 4, 5, 0⟩ []).2.1 "/data/ts"
        = some (formatRFC3339 ⟨2026, 10, 11, 3, 4, 5, 0⟩)
    ∧ (readStorageHandler "/data/ts"
          (writeStorageHandler "/data/ts" ⟨2026, 10, 11, 3, 4, 5, 0⟩ []).2.1).1.Message
        = "last time written to store: "
            ++ formatRFC3339 ⟨2026, 10, 11, 3, 4, 5, 0⟩
    ∧ (readStorageHandler "/data/ts"
          (writeStorageHandler "/data/ts" ⟨2026, 10, 11, 3, 4, 5, 0⟩ []).2.1).1.err = none
    ∧ (handle "p" (readStorageHandler "/data/ts"
          (writeStorageHandler "/data/ts" ⟨2026, 10, 11, 3, 4, 5, 0⟩ []).2.1).1).status
        = 200 :=
  storage_roundtrip_C5 "/data/ts" (by decide) "p" ⟨2026, 10, 11, 3, 4, 5, 0⟩ []

/-! ### Store lemmas shared by the probe-loop claims -/

/-- The greatest-id row of a list extended by a row dominating every id is
that new row. -/
theorem maxIdRow_append (l : List Entry) (e : Entry)
    (h : ∀ x ∈ l, x.id ≤ e.id) : maxIdRow (l ++ [e]) = some e := by
  induction l with
  | nil => rfl
  | cons x xs ih =>
      have hx : x.id ≤ e.id := h x (by simp)
      have ih' := ih (fun y hy => h y (by simp [hy]))
      simp [maxIdRow, ih', hx]

/-- Unfolding a run of write ticks on a trailing tick. -/
theorem runWrites_append (pod : String) (st : Store) (l : List WriteInput)
    (a : WriteInput) :
    runWrites pod st (l ++ [a]) = writeTick pod (runWrites pod st l) a := by
  simp [runWrites, List.foldl_append]

/-- Each write tick adds exactly one row. -/
theorem runWrites_length (pod : String) (inps : List WriteInput) (st : Store) :
    (runWrites pod st inps).rows.length = st.rows.length + inps.length := by
  induction inps generalizing st with
  | nil => simp [runWrites]
  | cons i is ih =>
      have := ih (writeTick pod st i)
      simp [runWrites, List.foldl_cons] at this ⊢
      rw [this]
      simp [writeTick, insertEntry]
      omega

/-- Every row id stays bounded by the auto-increment counter across a run of
write ticks. -/
theorem runWrites_ids_le (pod : String) (inps : List WriteInput) (st : Store)
    (h : ∀ e ∈ st.rows, e.id ≤ st.seq) :
    ∀ e ∈ (runWrites pod st inps).rows, e.id ≤ (runWrites pod st inps).seq := by
  induction inps generalizing st with
  | nil => simpa [runWrites] using h
  | cons i is ih =>
      have hstep : ∀ e ∈ (writeTick pod st i).rows, e.id ≤ (writeTick pod st i).seq := by
        intro e he
        simp [writeTick, insertEntry] at he
        rcases he with he | he
        · have := h e he
          simp [writeTick, insertEntry]
          omega
        · simp [writeTick, insertEntry, he]
      simpa [runWrites, List.foldl_cons] using ih (writeTick pod st i) hstep

/-- A run of write ticks only appends rows: the previous table content is an
unchanged initial segment of the new one. -/
theorem runWrites_rows_extend (pod : String) (inps : List WriteInput) (st : Store) :
    ∃ l, (runWrites pod st inps).rows = st.rows ++ l := by
  induction inps generalizing st with
  | nil => exact ⟨[], by simp [runWrites]⟩
  | cons i is ih =>
      obtain ⟨l, hl⟩ := ih (writeTick pod st i)
      refine ⟨{ id := st.seq + 1, pod := pod, ts := i.ts,
                payload := "rand=" ++ toString (i.rand % 1000) } :: l, ?_⟩
      simpa [runWrites, List.foldl_cons, writeTick, insertEntry] using hl

/-- Row identifiers remain strictly increasing in insertion order across any
run of write ticks. -/
theorem runWrites_pairwise (pod : String) (inps : List WriteInput) (st : Store)
    (hp : st.rows.Pairwise (fun a b => a.id < b.id))
    (hb : ∀ e ∈ st.rows, e.id ≤ st.seq) :
    (runWrites pod st inps).rows.Pairwise (fun a b => a.id < b.id) := by
  induction inps generalizing st with
  | nil => simpa [runWrites] using hp
  | cons i is ih =>
      have hp' : (writeTick pod st i).rows.Pairwise (fun a b => a.id < b.id) := by
        simp only [writeTick, insertEntry]
        rw [List.pairwise_append]
        refine ⟨hp, by simp, ?_⟩
        intro a ha b hbm
        simp at hbm
        subst hbm
        have := hb a ha
        simp
        omega
      have hb' : ∀ e ∈ (writeTick pod st i).rows, e.id ≤ (writeTick pod st i).seq := by
        intro e he
        simp [writeTick, insertEntry] at he
        rcases he with he | he
        · have := hb e he
          simp [writeTick, insertEntry]
          omega
        · simp [writeTick, insertEntry, he]
      simpa [runWrites, List.foldl_cons] using ih (writeTick pod st i) hp' hb'

/-- C6: after `N ≥ 1` successful write-cycle insertions starting from an
empty table (and no other writers), a read-cycle query succeeds and its
aggregate snapshot has count `N`, and its most-recent pod, timestamp and
payload fields are exactly the fields of the `N`-th (highest-id) inserted
record. -/
theorem aggregate_after_writes_C6 (pod : String) (inps : List WriteInput)
    (h : inps ≠ []) :
    readAggregate (runWrites pod emptyStore inps)
      = .ok { count := inps.length,
              lastPod := pod,
              lastTS := (inps.getLast h).ts,
              lastPayload := "rand=" ++ toString ((inps.getLast h).rand % 1000) } := by
  rcases (List.eq_nil_or_concat inps) with hnil | ⟨l, a, hla⟩
  · exact absurd hnil h
  · subst hla
    simp only [List.concat_eq_append] at h ⊢
    rw [runWrites_append]
    have hbound : ∀ e ∈ (runWrites pod emptyStore l).rows,
        e.id ≤ (runWrites pod emptyStore l).seq :=
      runWrites_ids_le pod l emptyStore (by simp [emptyStore])
    have hmax : maxIdRow ((writeTick pod (runWrites pod emptyStore l) a).rows)
        = some { id := (runWrites pod emptyStore l).seq + 1, pod := pod,
                 ts := a.ts, payload := "rand=" ++ toString (a.rand % 1000) } := by
      simp only [writeTick, insertEntry]
      exact maxIdRow_append _ _ (fun x hx => by have := hbound x hx; simp; omega)
    have hlen : (writeTick pod (runWrites pod emptyStore l) a).rows.length
        = (l ++ [a]).length := by
      simp only [writeTick, insertEntry, List.length_append, List.length_cons,
        List.length_nil, runWrites_length pod l emptyStore]
      simp [emptyStore]
    have hlast : (l ++ [a]).getLast h = a := List.getLast_append_singleton l
    rw [readAggregate, hmax]
    simp [hlen, hlast]

/-- Witness for C6 with two concrete write ticks. -/
theorem aggregate_after_writes_C6_witness :
    readAggregate (runWrites "pod-1" emptyStore [⟨"t1", 7⟩, ⟨"t2", 1005⟩])
      = .ok { count := ([⟨"t1", 7⟩, ⟨"t2", 1005⟩] : List WriteInput).length,
              lastPod := "pod-1",
              lastTS := (([⟨"t1", 7⟩, ⟨"t2", 1005⟩] : List WriteInput).getLast (by decide)).ts,
              lastPayload := "rand="
                ++ toString ((([⟨"t1", 7⟩, ⟨"t2", 1005⟩] : List WriteInput).getLast (by decide)).rand % 1000) } :=
  aggregate_after_writes_C6 "pod-1" [⟨"t1", 7⟩, ⟨"t2", 1005⟩] (by decide)

/-- C7: probe record identifiers are strictly increasing in insertion order
across any sequence of successful write-cycle ticks, and a record is never
updated or deleted afterwards: any further run of ticks leaves every
already-written row in place unchanged (the old table is an unchanged
initial segment of the new one), and read-cycle ticks do not modify the
table at all. -/
theorem ids_increasing_immutable_C7 (pod : String) (inps extra : List WriteInput)
    (st : Store) :
    (runWrites pod emptyStore inps).rows.Pairwise (fun a b => a.id < b.id)
    ∧ (runWrites pod st extra).rows.take st.rows.length = st.rows := by
  constructor
  · exact runWrites_pairwise pod inps emptyStore (by simp [emptyStore])
      (by simp [emptyStore])
  · obtain ⟨l, hl⟩ := runWrites_rows_extend pod extra st
    rw [hl]
    exact List.take_left st.rows l

/-- C8: when the `entries` table is empty, the read-cycle aggregate query
takes the error path (the correlated subqueries return NULL, which cannot be
scanned into the non-nullable string targets), the error is logged, no
aggregate snapshot is logged for that tick, and the cycle keeps producing
one log event per subsequent tick. -/
theorem empty_table_read_error_C8 (st : Store) (h : st.rows = []) (n : Nat) :
    readAggregate st = .error scanNullError
    ∧ readTickLog st = .readError scanNullError
    ∧ readCycleLogs st n = List.replicate n (.readError scanNullError)
    ∧ (∀ l ∈ readCycleLogs st n, ∀ agg, l ≠ .snapshot agg)
    ∧ (readCycleLogs st n).length = n := by
  have hagg : readAggregate st = .error scanNullError := by
    rw [readAggregate, h]
    rfl
  have htick : readTickLog st = .readError scanNullError := by
    rw [readTickLog, hagg]
  refine ⟨hagg, htick, ?_, ?_, ?_⟩
  · rw [readCycleLogs, htick]
  · intro l hl agg
    rw [readCycleLogs, htick] at hl
    have := List.eq_of_mem_replicate hl
    subst this
    intro hc
    cases hc
  · simp [readCycleLogs]

/-- Witness for C8 at the freshly created empty store and two ticks. -/
theorem empty_table_read_error_C8_witness :
    readAggregate emptyStore = .error scanNullError
    ∧ readTickLog emptyStore = .readError scanNullError
    ∧ readCycleLogs emptyStore 2 = List.replicate 2 (.readError scanNullError)
    ∧ (∀ l ∈ readCycleLogs emptyStore 2, ∀ agg, l ≠ .snapshot agg)
    ∧ (readCycleLogs emptyStore 2).length = 2 :=
  empty_table_read_error_C8 emptyStore rfl 2

/-! ### Cancellation lemmas -/

/-- The write goroutine stops at the first check at or after the
cancellation instant and every insert it ever issued began strictly before
that instant. -/
theorem writeLoop_spec (cancelAt : Nat) :
    ∀ k n, cancelAt - n = k → n ≤ cancelAt →
      (writeLoop cancelAt n).2 = cancelAt
      ∧ ∀ s ∈ (writeLoop cancelAt n).1, s < cancelAt := by
  intro k
  induction k with
  | zero =>
      intro n hk hn
      have heq : n = cancelAt := by omega
      subst heq
      rw [writeLoop]
      simp
  | succ k ih =>
      intro n hk hn
      have hlt : n < cancelAt := by omega
      obtain ⟨h2, h1⟩ := ih (n + 1) (by omega) (by omega)
      rw [writeLoop]
      simp only [hlt, dif_pos]
      refine ⟨h2, ?_⟩
      intro s hs
      rcases List.mem_cons.mp hs with hs | hs
      · omega
      · exact h1 s hs

/-- The read goroutine, given enough fuel, stops at the cancellation instant
(possibly after resolving a simultaneous tick in favor of one final query)
and every query it ever issued began at or before that instant. -/
theorem readLoop_spec (cancelAt p : Nat) (choice : Nat → Bool) :
    ∀ fuel i, p * i ≤ cancelAt → cancelAt < p * (i + fuel) →
      (readLoop cancelAt p choice i fuel).2 = some cancelAt
      ∧ ∀ q ∈ (readLoop cancelAt p choice i fuel).1, q ≤ cancelAt := by
  intro fuel
  induction fuel with
  | zero =>
      intro i h1 h2
      rw [Nat.add_zero] at h2
      exact absurd h2 (Nat.not_lt.mpr h1)
  | succ fuel ih =>
      intro i h1 h2
      have h2' : cancelAt < p * ((i + 1) + fuel) := by
        have harg : (i + 1) + fuel = i + (fuel + 1) := by omega
        rw [harg]
        exact h2
      simp only [readLoop]
      split
      · simp
      · next hc =>
          split
          · next he =>
              split
              · refine ⟨by rw [he], ?_⟩
                intro q hq
                simp at hq
              · obtain ⟨r2, r1⟩ := ih (i + 1) (Nat.le_of_eq he.symm) h2'
                refine ⟨r2, ?_⟩
                intro q hq
                rcases List.mem_cons.mp hq with hq | hq
                · omega
                · exact r1 q hq
          · next he =>
              have hle : p * (i + 1) ≤ cancelAt := by omega
              obtain ⟨r2, r1⟩ := ih (i + 1) hle h2'
              refine ⟨r2, ?_⟩
              intro q hq
              rcases List.mem_cons.mp hq with hq | hq
              · omega
              · exact r1 q hq

/-- C9: once the shared cancellation signal fires (instant `cancelAt`), each
background cycle observes it and terminates: the write goroutine returns at
the first check at or after the instant and begins no insert from that
instant on; the read goroutine, for every resolution of the
simultaneous-readiness race in its `select`, returns at the cancellation
instant, and no query begins after that observing check — the only
store operation possibly still running at that point is the one the race
allowed to start at the instant itself, which completes. -/
theorem cancellation_prompt_C9 (cancelAt p : Nat) (hp : 1 ≤ p)
    (choice : Nat → Bool) :
    ((writeLoop cancelAt 0).2 = cancelAt
      ∧ ∀ s ∈ (writeLoop cancelAt 0).1, s < cancelAt)
    ∧ ((readLoop cancelAt p choice 0 (cancelAt + 1)).2 = some cancelAt
      ∧ ∀ q ∈ (readLoop cancelAt p choice 0 (cancelAt + 1)).1, q ≤ cancelAt) := by
  constructor
  · exact writeLoop_spec cancelAt cancelAt 0 rfl (Nat.zero_le _)
  · refine readLoop_spec cancelAt p choice (cancelAt + 1) 0 (by simp) ?_
    have h1 : cancelAt < 1 * (0 + (cancelAt + 1)) := by omega
    calc cancelAt < 1 * (0 + (cancelAt + 1)) := h1
      _ ≤ p * (0 + (cancelAt + 1)) := Nat.mul_le_mul_right _ hp

/-- Witness for C9 at a concrete cancellation instant, tick period and race
resolution. -/
theorem cancellation_prompt_C9_witness :
    ((writeLoop 5 0).2 = 5 ∧ ∀ s ∈ (writeLoop 5 0).1, s < 5)
    ∧ ((readLoop 5 2 (fun i => i % 2 = 0) 0 (5 + 1)).2 = some 5
      ∧ ∀ q ∈ (readLoop 5 2 (fun i => i % 2 = 0) 0 (5 + 1)).1, q ≤ 5) :=
  cancellation_prompt_C9 5 2 (by decide) (fun i => i % 2 = 0)

/-- Any value accepted by the `strconv.Atoi` model lies in the signed 64-bit
machine-word range. -/
theorem goAtoi_range (s : String) (i : Int) (h : goAtoi s = some i) :
    -(2 ^ 63 : Int) ≤ i ∧ i < 2 ^ 63 := by
  unfold goAtoi at h
  cases hd : s.data with
  | nil => rw [hd] at h; simp at h
  | cons c rest =>
      rw [hd] at h
      simp only [] at h
      by_cases hm : c = '-'
      · rw [if_pos hm] at h
        cases hpd : parseDigits rest with
        | none => simp [hpd] at h
        | some n =>
            simp only [hpd] at h
            by_cases hr : n ≤ 2 ^ 63
            · rw [if_pos hr] at h
              have hi : i = -(n : Int) := by
                simpa using h.symm
              subst hi
              constructor
              · simp only [neg_le_neg_iff]
                exact_mod_cast hr
              · have : (0 : Int) ≤ (n : Int) := Int.ofNat_nonneg n
                have hp : (0 : Int) < 2 ^ 63 := by positivity
                omega
            · rw [if_neg hr] at h
              simp at h
      · rw [if_neg hm] at h
        by_cases hp' : c = '+'
        all_goals
          first
          | (rw [if_pos hp'] at h)
          | (rw [if_neg hp'] at h)
        all_goals
          revert h
          generalize (parseDigits _) = pd
          intro h
          cases pd with
          | none => simp at h
          | some n =>
              simp only [] at h
              by_cases hr : n < 2 ^ 63
              · rw [if_pos hr] at h
                have hi : i = (n : Int) := by simpa using h.symm
                subst hi
                constructor
                · have : (0 : Int) ≤ (n : Int) := Int.ofNat_nonneg n
                  have hp2 : (0 : Int) < 2 ^ 63 := by positivity
                  omega
                · exact_mod_cast hr
              · rw [if_neg hr] at h
                simp at h

/-- C10: a `UID` or `GID` value is accepted at startup exactly when it
parses as a signed 64-bit machine-word integer (possibly negative or larger
than 32 bits), and every accepted value is truncated modulo `2^32` into the
unsigned identity parameter sent on the NFS connection; in particular
`UID=-1` is accepted and sent as `4294967295`, and the 33-bit value
`4294967296` is accepted and sent as `0`. -/
theorem uid_truncation_C10 (s mn : String) (i g : Int) (h : goAtoi s = some i) :
    parsedAuthId s = some ((i % (2 ^ 32 : Int)).toNat)
    ∧ (authParams i g mn).Uid = (i % (2 ^ 32 : Int)).toNat
    ∧ (authParams g i mn).Gid = (i % (2 ^ 32 : Int)).toNat
    ∧ (-(2 ^ 63 : Int) ≤ i ∧ i < 2 ^ 63)
    ∧ goAtoi "-1" = some (-1)
    ∧ parsedAuthId "-1" = some 4294967295
    ∧ goAtoi "4294967296" = some 4294967296
    ∧ parsedAuthId "4294967296" = some 0 := by
  refine ⟨?_, rfl, rfl, goAtoi_range s i h, by decide, by decide, by decide, by decide⟩
  simp [parsedAuthId, h, toUint32]

/-- Witness for C10 at the concrete input `UID=-1`. -/
theorem uid_truncation_C10_witness :
    parsedAuthId "-1" = some ((((-1) : Int) % (2 ^ 32 : Int)).toNat)
    ∧ (authParams (-1) 0 "its-me").Uid = (((-1) : Int) % (2 ^ 32 : Int)).toNat
    ∧ (authParams 0 (-1) "its-me").Gid = (((-1) : Int) % (2 ^ 32 : Int)).toNat
    ∧ (-(2 ^ 63 : Int) ≤ ((-1) : Int) ∧ ((-1) : Int) < 2 ^ 63)
    ∧ goAtoi "-1" = some (-1)
    ∧ parsedAuthId "-1" = some 4294967295
    ∧ goAtoi "4294967296" = some 4294967296
    ∧ parsedAuthId "4294967296" = some 0 :=
  uid_truncation_C10 "-1" "its-me" (-1) 0 (by decide)

end NfsTest
